import Mathlib

/-!
Verification of the WhatsApp webhook services in this repository
(`meta.py`: Meta Cloud API variant, `main.py`: Twilio variant).

Text is modelled as `List Char`; JSON payloads as the inductive `JVal`.
Python-level partial operations (`.get` on a non-dict, `[0]` on a
non-indexable, `.replace` on a non-string) are modelled with `Except Unit`,
an error meaning the operation raised an exception at that point.
-/

/-- JSON values, as produced by `request.json()`. -/
inductive JVal where
  | jnull
  | jbool (b : Bool)
  | jnum (n : Int)
  | jstr (s : List Char)
  | jarr (xs : List JVal)
  | jobj (fs : List (List Char × JVal))

instance : Inhabited JVal := ⟨.jnull⟩

/-- Python truthiness of a JSON value (`if x:`). -/
def pyTruthy : JVal → Bool
  | .jnull => false
  | .jbool b => b
  | .jnum n => n != 0
  | .jstr s => !s.isEmpty
  | .jarr xs => !xs.isEmpty
  | .jobj fs => !fs.isEmpty

/-- The payload keys consumed by the Meta handler. -/
def entryKey : List Char := "entry".toList

def changesKey : List Char := "changes".toList

def valueKey : List Char := "value".toList

def messagesKey : List Char := "messages".toList

def fromKey : List Char := "from".toList

def typeKey : List Char := "type".toList

def textKey : List Char := "text".toList

def bodyKey : List Char := "body".toList

/-- Lookup of a key in a JSON object (Python dict lookup). -/
def lookupField : List (List Char × JVal) → List Char → Option JVal
  | [], _ => none
  | (k', v) :: rest, k => if k' = k then some v else lookupField rest k

/-- `v.get(k, dflt)`: raises (AttributeError) when `v` is not a dict. -/
def dictGet (v : JVal) (k : List Char) (dflt : JVal) : Except Unit JVal :=
  match v with
  | .jobj fs => .ok ((lookupField fs k).getD dflt)
  | _ => .error ()

/-- `v[0]`: first element of a list, first character of a string,
raises (TypeError / IndexError) otherwise. -/
def index0 : JVal → Except Unit JVal
  | .jarr (x :: _) => .ok x
  | .jstr (c :: _) => .ok (.jstr [c])
  | _ => .error ()

/-- Is the value a JSON string? -/
def isJStr : JVal → Bool
  | .jstr _ => true
  | _ => false

/-- One fuel-indexed pass of Python `s.replace(pat, "")`: delete the
left-most occurrence of `pat`, continue scanning after the deleted
occurrence (no rescan of already-produced output). The fuel only needs to
be at least `s.length`. -/
def pyReplaceDel (pat : List Char) : Nat → List Char → List Char
  | _, [] => []
  | 0, s => s
  | n + 1, c :: rest =>
    if !pat.isEmpty && pat.isPrefixOf (c :: rest) then
      pyReplaceDel pat n ((c :: rest).drop pat.length)
    else
      c :: pyReplaceDel pat n rest

/-- Python `s.replace(pat, "")` for a non-empty pattern. -/
def pyDel (pat s : List Char) : List Char := pyReplaceDel pat s.length s

/-- The channel prefix removed by the services. -/
def waPat : List Char := "whatsapp:".toList

/-- The plus sign removed by the services. -/
def plusPat : List Char := "+".toList

/-- Session Identity Resolver:
`user_phone.replace("whatsapp:", "").replace("+", "")`
(meta.py line 147 and line 188, main.py line 111). -/
def resolve (s : List Char) : List Char := pyDel plusPat (pyDel waPat s)

/-- The characters removed by `clean_reply` (the regex class in
meta.py line 173): `*`, `_`, `~` and backtick (code 96). -/
def isMark (c : Char) : Bool :=
  c == '*' || c == '_' || c == '~' || c == Char.ofNat 96

/-- Reply Sanitizer `clean_reply` (meta.py lines 171-174):
`re.sub` with an empty replacement on a character class deletes exactly
the characters of that class. -/
def clean_reply (text : List Char) : List Char :=
  text.filter (fun c => !isMark c)

/-- Outcome of one call of the Conversational Agent Gateway
(`library_agent.run`): it raises, returns a falsy response, or returns a
response with string content. -/
inductive AgentOutcome where
  | raised
  | noResponse
  | responded (content : List Char)
deriving DecidableEq

/-- What the HTTP transport sees at the end of the Meta POST handler:
either the acknowledgement `200 {"status": "ok"}` (meta.py lines 143, 155,
191) or an exception propagating out of the handler (no 200). -/
inductive HttpOutcome where
  | ack
  | unhandledError
deriving DecidableEq

/-- Observable behaviour of one Meta POST /webhook request: the HTTP
outcome, the outbound messages sent via `send_whatsapp_message`
(pairs `(to, message)`, in order), and the agent invocations
(pairs `(user_message, session_id)`, in order). -/
structure MetaResult where
  outcome : HttpOutcome
  sends : List (List Char × List Char)
  agentCalls : List (JVal × List Char)

namespace MetaApi

/-- Fixed reply for unsupported message types (meta.py line 153). -/
def unsupportedMsg : List Char :=
  "Sorry, I can only process text messages right now! 📝".toList

/-- Fallback reply when the agent returns a falsy response
(meta.py line 166, main.py line 119). -/
def oopsMsg : List Char :=
  "Oops! 😅 I couldn".toList ++ [Char.ofNat 39] ++ "t process that.".toList

/-- Fallback reply sent from the except block (meta.py line 189,
main.py line 123). -/
def errMsg : List Char := "Something went wrong 🙈 Please try again!".toList

/-- The except block of the Meta handler (meta.py lines 185-191):
if `user_phone` is truthy it is `.replace`d again — which raises once more
(propagating out of the handler) when `user_phone` is a truthy
non-string — and the fallback is sent; then the acknowledgement. -/
def exceptPath (user_phone : JVal) (calls : List (JVal × List Char)) :
    MetaResult :=
  if pyTruthy user_phone then
    match user_phone with
    | .jstr s => ⟨.ack, [(resolve s, errMsg)], calls⟩
    | _ => ⟨.unhandledError, [], calls⟩
  else ⟨.ack, [], calls⟩

/-- Payload navigation of meta.py lines 137-140:
`data.get("entry", [{}])[0]`, `.get("changes", [{}])[0]`,
`.get("value", {})`, `.get("messages", [])`. -/
def getMessages (data : JVal) : Except Unit JVal := do
  let entryList ← dictGet data entryKey (.jarr [.jobj []])
  let entry ← index0 entryList
  let changesList ← dictGet entry changesKey (.jarr [.jobj []])
  let changes ← index0 changesList
  let value ← dictGet changes valueKey (.jobj [])
  dictGet value messagesKey (.jarr [])

/-- The first-message extraction of meta.py lines 136-145: `none` covers
the paths that end in the bare acknowledgement with `user_phone` still
`None` — malformed JSON, a navigation step that raised, the early return
on falsy `messages` (line 142-143), and a first message that is not a
dict (so `message.get` at line 146 raised). -/
def extractFirst (body : Option JVal) :
    Option (List (List Char × JVal)) :=
  match body with
  | none => none
  | some data =>
    match getMessages data with
    | .error _ => none
    | .ok messages =>
      if pyTruthy messages then
        match index0 messages with
        | .ok (.jobj fs) => some fs
        | _ => none
      else none

/-- Is the `type` field value exactly the JSON string "text"
(the `message_type != "text"` test at meta.py line 150)? -/
def isTextType : JVal → Bool
  | .jstr s => s = "text".toList
  | _ => false

/-- Meta handler body from line 146 on, given the first message object
`fs`. `user_phone = message.get("from")` (line 146); a non-string truthy
value makes line 147 raise and the except block raise again; the type
check (lines 149-155); `message.get("text", {}).get("body", "")`
(line 157; a non-dict "text" value makes the inner `.get` raise); the
agent call (line 165), fallback on a falsy response (line 166),
`clean_reply` (line 176), and the send (line 183). -/
def handleMessage (fs : List (List Char × JVal))
    (agent : JVal → List Char → AgentOutcome) : MetaResult :=
  let user_phone := (lookupField fs fromKey).getD .jnull
  match user_phone with
  | .jstr s =>
    let user_phone_clean := resolve s
    let message_type := (lookupField fs typeKey).getD .jnull
    if isTextType message_type then
      match (lookupField fs textKey).getD (.jobj []) with
      | .jobj tfs =>
        let user_message := (lookupField tfs bodyKey).getD (.jstr [])
        let calls := [(user_message, user_phone_clean)]
        match agent user_message user_phone_clean with
        | .raised => exceptPath (.jstr s) calls
        | .noResponse =>
          ⟨.ack, [(user_phone_clean, clean_reply oopsMsg)], calls⟩
        | .responded content =>
          ⟨.ack, [(user_phone_clean, clean_reply content)], calls⟩
      | _ => exceptPath (.jstr s) []
    else
      ⟨.ack, [(user_phone_clean, unsupportedMsg)], []⟩
  | v => exceptPath v []

/-- The Meta POST /webhook handler (meta.py lines 132-191).
`body` is the result of `request.json()` (`none`: parsing raised).
`agent` is the external Conversational Agent Gateway; the outbound
sender is modelled as always delivering an HTTP status (which the code
only logs), per the error taxonomy of the service. -/
def whatsapp_webhook (body : Option JVal)
    (agent : JVal → List Char → AgentOutcome) : MetaResult :=
  match extractFirst body with
  | none => ⟨.ack, [], []⟩
  | some fs => handleMessage fs agent

/-- The value `message.get("from")` would produce, when line 146 is
reached at all. -/
def fromField (body : Option JVal) : Option JVal :=
  (extractFirst body).map (fun fs => (lookupField fs fromKey).getD .jnull)

/-- A payload is poisonous exactly when its first message carries a
truthy non-string `from` value: then line 147 raises and the except
block (line 188) raises again. -/
def badFrom (body : Option JVal) : Bool :=
  match fromField body with
  | some v => pyTruthy v && !isJStr v
  | none => false

/-- The Meta GET /webhook verification handshake (meta.py lines 118-127).
Query parameters default to `none` (Python `None`); the configured
secret `META_VERIFY_TOKEN` is `none` when the environment variable is
unset. Result: `(status, body)`; `PlainTextResponse(None)` has an empty
body. -/
def verify_webhook (hub_mode hub_token hub_challenge : Option (List Char))
    (META_VERIFY_TOKEN : Option (List Char)) : Nat × List Char :=
  if hub_mode = some "subscribe".toList ∧ hub_token = META_VERIFY_TOKEN then
    (200, hub_challenge.getD [])
  else
    (403, "Forbidden".toList)

end MetaApi

namespace TwilioApi

/-- Observable behaviour of one Twilio POST /webhook request: the HTTP
status, the `media_type` of the response, the `<Message>` bodies of the
TwiML document (serialisation of `MessagingResponse` is the Twilio
library, an external collaborator), and the agent invocations. -/
structure TwilioResult where
  status : Nat
  media_type : List Char
  messages : List (List Char)
  agentCalls : List (List Char × List Char)
deriving DecidableEq

/-- The Twilio POST /webhook handler (main.py lines 102-132). Form
fields `Body`, `From`, `To` are always strings; the reply is the agent
content, the fixed fallback on a falsy response (line 119), or the fixed
error fallback when the agent raised (line 123); no sanitisation is
applied on this path. -/
def whatsapp_webhook (Body From To : List Char)
    (agent : List Char → List Char → AgentOutcome) : TwilioResult :=
  let user_message := Body
  let user_phone := From
  let session_id := resolve user_phone
  let reply : List Char :=
    match agent user_message session_id with
    | .raised => MetaApi.errMsg
    | .noResponse => MetaApi.oopsMsg
    | .responded content => content
  ⟨200, "application/xml".toList, [reply], [(user_message, session_id)]⟩

end TwilioApi

/-- The canonical Meta change-notification envelope around a `messages`
value. -/
def mkEnvelope (msgs : JVal) : JVal :=
  .jobj [(entryKey, .jarr [.jobj [(changesKey, .jarr [.jobj
    [(valueKey, .jobj [(messagesKey, msgs)])]])]])]

/-- A well-formed envelope holding one text message from sender `s` with
body `m`. -/
def mkTextPayload (s m : List Char) : JVal :=
  mkEnvelope (.jarr [.jobj [(fromKey, .jstr s),
    (typeKey, .jstr "text".toList),
    (textKey, .jobj [(bodyKey, .jstr m)])]])

/-- A constant well-behaved agent, used to instantiate theorems. -/
def agentOk : JVal → List Char → AgentOutcome :=
  fun _ _ => .responded "ok".toList

/-- A payload whose first message is an image. -/
def imgPayload : JVal :=
  mkEnvelope (.jarr [.jobj [(fromKey, .jstr "whatsapp:+15551234567".toList),
    (typeKey, .jstr "image".toList)]])

/-- A payload whose first message is an audio message. -/
def audioPayload : JVal :=
  mkEnvelope (.jarr [.jobj [(fromKey, .jstr "+15551234567".toList),
    (typeKey, .jstr "audio".toList)]])

/-- A well-formed text message whose `text` object has no `body` key, so
the extracted body defaults to the empty string. -/
def emptyBodyPayload : JVal :=
  mkEnvelope (.jarr [.jobj [(fromKey, .jstr "15551234567".toList),
    (typeKey, .jstr "text".toList),
    (textKey, .jobj [])]])

/-- A payload whose first message has the number `5` as its `from`
field. -/
def badFromPayload : JVal :=
  mkEnvelope (.jarr [.jobj [(fromKey, .jnum 5)]])

/-- A status-callback payload: the `value` object carries `statuses` and
`metadata` but no `messages` key. -/
def statusCallbackPayload : JVal :=
  .jobj [(entryKey, .jarr [.jobj [(changesKey, .jarr [.jobj
    [(valueKey, .jobj [("statuses".toList, .jarr [.jobj []]),
      ("metadata".toList, .jobj [])])]])]])]

/-! ### Lemmas about the Session Identity Resolver -/

theorem isPrefixOf_append_self (p t : List Char) :
    p.isPrefixOf (p ++ t) = true := by
  induction p with
  | nil => simp [List.isPrefixOf]
  | cons a p ih => simp [List.isPrefixOf, ih]

theorem drop_length_append (p t : List Char) : (p ++ t).drop p.length = t := by
  induction p with
  | nil => simp
  | cons a p ih => simpa using ih

/-- Deleting a pattern whose first character does not occur in `s` leaves
`s` unchanged. -/
theorem pyReplaceDel_not_head (p0 : Char) (pt : List Char) :
    ∀ n s, s.length ≤ n → p0 ∉ s → pyReplaceDel (p0 :: pt) n s = s := by
  intro n
  induction n with
  | zero =>
    intro s hs _
    cases s with
    | nil => rfl
    | cons c rest => simp at hs
  | succ n ih =>
    intro s hs hmem
    cases s with
    | nil => rfl
    | cons c rest =>
      have hc : p0 ≠ c := fun h => hmem (h ▸ List.mem_cons_self c rest)
      have hpre : (p0 :: pt).isPrefixOf (c :: rest) = false := by
        simp [List.isPrefixOf]
        intro h
        exact absurd h hc
      simp only [pyReplaceDel, hpre, Bool.and_false, if_neg, Bool.false_eq_true,
        not_false_eq_true]
      have : p0 ∉ rest := fun h => hmem (List.mem_cons_of_mem c h)
      rw [ih rest (by simp at hs; omega) this]

/-- The fuel of `pyReplaceDel` is irrelevant once it covers the length of
the input. -/
theorem pyReplaceDel_fuel (p : List Char) (hp : p ≠ []) :
    ∀ n m s, s.length ≤ n → s.length ≤ m →
      pyReplaceDel p n s = pyReplaceDel p m s := by
  intro n
  induction n with
  | zero =>
    intro m s hn _
    cases s with
    | nil => cases m <;> rfl
    | cons c rest => simp at hn
  | succ n ih =>
    intro m s hn hm
    cases s with
    | nil => cases m <;> rfl
    | cons c rest =>
      cases m with
      | zero => simp at hm
      | succ m =>
        have hplen : 1 ≤ p.length := by
          cases p with
          | nil => exact absurd rfl hp
          | cons q qs => simp
        simp only [List.length_cons] at hn hm
        by_cases hcond : (!p.isEmpty && p.isPrefixOf (c :: rest)) = true
        · simp only [pyReplaceDel, hcond, if_pos]
          apply ih
          · simp only [List.length_drop, List.length_cons]
            omega
          · simp only [List.length_drop, List.length_cons]
            omega
        · simp only [pyReplaceDel, hcond, if_neg, Bool.false_eq_true,
            not_false_eq_true]
          rw [ih m rest (by simp at hn; omega) (by simp at hm; omega)]

/-- One deletion step at the front. -/
theorem pyReplaceDel_append_self (p : List Char) (hp : p ≠ []) (n : Nat)
    (t : List Char) : pyReplaceDel p (n + 1) (p ++ t) = pyReplaceDel p n t := by
  cases p with
  | nil => exact absurd rfl hp
  | cons q qs =>
    have hcond : (!(q :: qs).isEmpty && (q :: qs).isPrefixOf ((q :: qs) ++ t))
        = true := by
      simp [isPrefixOf_append_self]
    show pyReplaceDel (q :: qs) (n + 1) (q :: (qs ++ t)) = _
    simp only [pyReplaceDel]
    rw [if_pos (by simpa using hcond)]
    congr 1
    exact drop_length_append (q :: qs) t

theorem pyDel_append_self (p : List Char) (hp : p ≠ []) (t : List Char) :
    pyDel p (p ++ t) = pyDel p t := by
  have hplen : 1 ≤ p.length := by
    cases p with
    | nil => exact absurd rfl hp
    | cons q qs => simp
  have hlen : (p ++ t).length = (p.length + t.length - 1) + 1 := by
    simp only [List.length_append]
    omega
  unfold pyDel
  rw [hlen, pyReplaceDel_append_self p hp _ t]
  exact pyReplaceDel_fuel p hp _ _ t (by omega) (Nat.le_refl _)

theorem pyDel_not_head (p0 : Char) (pt s : List Char) (h : p0 ∉ s) :
    pyDel (p0 :: pt) s = s :=
  pyReplaceDel_not_head p0 pt s.length s (Nat.le_refl _) h

/-- Deleting the single-character pattern `+` is exactly a filter. -/
theorem pyReplaceDel_plus :
    ∀ n s, s.length ≤ n →
      pyReplaceDel plusPat n s = s.filter (fun c => !(c == '+')) := by
  intro n
  induction n with
  | zero =>
    intro s hs
    cases s with
    | nil => rfl
    | cons c rest => simp at hs
  | succ n ih =>
    intro s hs
    cases s with
    | nil => rfl
    | cons c rest =>
      have hrest : rest.length ≤ n := by simp at hs; omega
      by_cases hc : c = '+'
      · subst hc
        have hcond : (!plusPat.isEmpty && plusPat.isPrefixOf ('+' :: rest))
            = true := by simp [plusPat, List.isPrefixOf]
        simp only [pyReplaceDel, hcond, if_pos]
        have hdrop : ('+' :: rest).drop plusPat.length = rest := rfl
        rw [hdrop, ih rest hrest]
        simp [List.filter_cons]
      · have hcond : (!plusPat.isEmpty && plusPat.isPrefixOf (c :: rest))
            = false := by
          simp [plusPat, List.isPrefixOf]
          intro h
          exact absurd h.symm hc
        simp only [pyReplaceDel, hcond, if_neg, Bool.false_eq_true,
          not_false_eq_true]
        rw [ih rest hrest]
        simp [List.filter_cons, hc]

theorem pyDel_plus (s : List Char) :
    pyDel plusPat s = s.filter (fun c => !(c == '+')) :=
  pyReplaceDel_plus s.length s (Nat.le_refl _)

theorem plus_not_mem_resolve (s : List Char) : '+' ∉ resolve s := by
  unfold resolve
  rw [pyDel_plus]
  intro h
  have := List.of_mem_filter h
  simp at this

theorem w_head_waPat : waPat = 'w' :: "hatsapp:".toList := rfl

/-- If `w` does not occur in a string, the whole resolver leaves the
plus-free part intact: `resolve` is then just the plus filter. -/
theorem resolve_of_not_w (s : List Char) (h : 'w' ∉ s) :
    resolve s = s.filter (fun c => !(c == '+')) := by
  unfold resolve
  rw [w_head_waPat, pyDel_not_head _ _ s h, pyDel_plus]

/-! ### Structural lemmas about the Meta handler -/

theorem exceptPath_calls (v : JVal) (calls : List (JVal × List Char)) :
    (MetaApi.exceptPath v calls).agentCalls = calls := by
  unfold MetaApi.exceptPath
  by_cases h : pyTruthy v = true
  · rw [if_pos h]
    cases v <;> rfl
  · rw [if_neg h]

theorem exceptPath_outcome (v : JVal) (calls : List (JVal × List Char)) :
    (MetaApi.exceptPath v calls).outcome
      = (if pyTruthy v && !isJStr v then HttpOutcome.unhandledError
         else .ack) := by
  unfold MetaApi.exceptPath
  by_cases h : pyTruthy v = true
  · rw [if_pos h]
    cases v <;> simp [isJStr, h]
  · rw [if_neg h]
    simp at h
    simp [h]

theorem clean_oops : clean_reply MetaApi.oopsMsg = MetaApi.oopsMsg := by decide

/-! ### Claims -/

/-- C3 counterexample: the resolver is not idempotent on every string.
`resolve` deletes occurrences of `"whatsapp:"` left to right without
rescanning, so on `"whatswhatsapp:app:"` the first application yields
`"whatsapp:"` and the second application yields `""`. -/
theorem C3_counterexample :
    resolve (resolve ("whatswhatsapp:app:".toList))
      ≠ resolve ("whatswhatsapp:app:".toList) := by decide

/-- C3 (amended): the Session Identity Resolver deletes every occurrence
of `"whatsapp:"` and then every `'+'` from the raw identifier (not only
leading ones); the three forms `whatsapp:+<digits>`, `+<digits>` and
`<digits>` all yield the same `<digits>` key; and re-applying the
resolver to its own output is a no-op whenever that output contains no
`'w'` (in particular on every digits key) — but not for arbitrary
strings. -/
theorem C3_resolve_amended :
    (∀ d : List Char, (∀ c ∈ d, c.isDigit) →
      resolve ("whatsapp:+".toList ++ d) = d ∧
      resolve ('+' :: d) = d ∧
      resolve d = d) ∧
    (∀ x : List Char, 'w' ∉ resolve x → resolve (resolve x) = resolve x) ∧
    resolve ("1+2+3".toList) = "123".toList := by
  refine ⟨?_, ?_, by decide⟩
  · intro d hd
    have hw : 'w' ∉ d := fun h => by
      have := hd 'w' h
      simp at this
    have hplus : '+' ∉ d := fun h => by
      have := hd '+' h
      simp at this
    have hfilter : d.filter (fun c => !(c == '+')) = d := by
      apply List.filter_eq_self.mpr
      intro c hc
      simp
      intro h
      exact hplus (h ▸ hc)
    refine ⟨?_, ?_, ?_⟩
    · show resolve (waPat ++ ('+' :: d)) = d
      unfold resolve
      rw [pyDel_append_self waPat (by decide) ('+' :: d), w_head_waPat,
        pyDel_not_head _ _ _ (by simpa using hw), pyDel_plus]
      simpa [List.filter_cons] using hfilter
    · unfold resolve
      rw [w_head_waPat, pyDel_not_head _ _ _ (by simpa using hw), pyDel_plus]
      simpa [List.filter_cons] using hfilter
    · unfold resolve
      rw [w_head_waPat, pyDel_not_head _ _ _ hw, pyDel_plus, hfilter]
  · intro x hx
    rw [resolve_of_not_w (resolve x) hx]
    apply List.filter_eq_self.mpr
    intro c hc
    simp
    intro h
    exact plus_not_mem_resolve x (h ▸ hc)

/-- C3 witness: the amended theorem at the canonical sender and at a
concrete w-free string. -/
theorem C3_resolve_amended_witness :
    resolve ("whatsapp:+".toList ++ "15551234567".toList)
      = "15551234567".toList ∧
    resolve (resolve ("abc+def".toList)) = resolve ("abc+def".toList) :=
  ⟨(C3_resolve_amended.1 "15551234567".toList (by decide)).1,
   C3_resolve_amended.2.1 "abc+def".toList (by decide)⟩

/-- C4: the Reply Sanitizer removes exactly the literal characters `*`,
`_`, `~` and backtick and changes nothing else: the spec example holds,
`clean_reply` is idempotent, its output is a subsequence of its input,
a character is in the output iff it is a non-marker character of the
input, and the multiplicity of every non-marker character is
preserved. -/
theorem C4_clean_reply :
    clean_reply ("*Hello* _there_ ~friend~ `code`".toList)
      = "Hello there friend code".toList ∧
    (∀ x : List Char, clean_reply (clean_reply x) = clean_reply x) ∧
    (∀ x : List Char, (clean_reply x).Sublist x) ∧
    (∀ (x : List Char) (c : Char),
      c ∈ clean_reply x ↔ c ∈ x ∧ isMark c = false) ∧
    (∀ (x : List Char) (c : Char), isMark c = false →
      (clean_reply x).count c = x.count c) := by
  refine ⟨by decide, ?_, ?_, ?_, ?_⟩
  · intro x
    apply List.filter_eq_self.mpr
    intro c hc
    have h2 : c ∈ x ∧ isMark c = false := by
      simpa [clean_reply, List.mem_filter] using hc
    simp [h2.2]
  · intro x
    exact List.filter_sublist x
  · intro x c
    simp [clean_reply, List.mem_filter]
  · intro x c hc
    unfold clean_reply
    induction x with
    | nil => rfl
    | cons a rest ih =>
      by_cases ha : isMark a = true
      · have hne : a ≠ c := fun h => by rw [h, hc] at ha; cases ha
        rw [List.filter_cons_of_neg (by simp [ha]), List.count_cons]
        simp only [ih]
        simp [Ne.symm hne]
        exact hne
      · rw [List.filter_cons_of_pos (by simp at ha; simp [ha]),
          List.count_cons, List.count_cons, ih]

/-- C4 witness: count preservation of a non-marker character at a
concrete input. -/
theorem C4_clean_reply_witness :
    (clean_reply ("*a*ba".toList)).count 'a' = ("*a*ba".toList).count 'a' :=
  C4_clean_reply.2.2.2.2 "*a*ba".toList 'a' (by decide)

/-- C6: the Meta verification handshake echoes the challenge with a 200
when the mode is "subscribe" and the supplied token equals the configured
secret, and returns 403 "Forbidden" otherwise. -/
theorem C6_verify_webhook :
    ∀ (mode token : Option (List Char)) (ch : List Char)
      (cfg : Option (List Char)),
      (mode = some "subscribe".toList ∧ token = cfg →
        MetaApi.verify_webhook mode token (some ch) cfg = (200, ch)) ∧
      (¬(mode = some "subscribe".toList ∧ token = cfg) →
        MetaApi.verify_webhook mode token (some ch) cfg
          = (403, "Forbidden".toList)) := by
  intro mode token ch cfg
  constructor
  · intro h
    unfold MetaApi.verify_webhook
    rw [if_pos h]
    rfl
  · intro h
    unfold MetaApi.verify_webhook
    rw [if_neg h]

/-- C6 witness: the handshake at the configured secret "abc123", on a
matching and on a mismatching request. -/
theorem C6_verify_webhook_witness :
    MetaApi.verify_webhook (some "subscribe".toList) (some "abc123".toList)
      (some "XYZ".toList) (some "abc123".toList) = (200, "XYZ".toList) ∧
    MetaApi.verify_webhook (some "subscribe".toList) (some "wrong".toList)
      (some "XYZ".toList) (some "abc123".toList)
      = (403, "Forbidden".toList) :=
  ⟨(C6_verify_webhook _ _ _ _).1 ⟨rfl, rfl⟩,
   (C6_verify_webhook _ _ _ _).2 (by decide)⟩

/-- C10 (implicit): with the verify-token environment variable unset and
the request omitting hub.verify_token, the equality `None == None` passes
and a subscribe request is answered 200 with the (absent, hence empty)
challenge; in general the 403 branch is taken exactly when the mode is
not "subscribe" or the supplied token differs from the configured
value. -/
theorem C10_verify_webhook_none :
    MetaApi.verify_webhook (some "subscribe".toList) none none none
      = (200, []) ∧
    (∀ (mode token ch cfg : Option (List Char)),
      (MetaApi.verify_webhook mode token ch cfg).1 = 403 ↔
        (mode ≠ some "subscribe".toList ∨ token ≠ cfg)) := by
  constructor
  · rfl
  · intro mode token ch cfg
    unfold MetaApi.verify_webhook
    by_cases h : mode = some "subscribe".toList ∧ token = cfg
    · rw [if_pos h]
      simp [h.1, h.2]
    · rw [if_neg h]
      simp only [true_iff]
      tauto

/-- C8: every payload whose extraction does not reach a first-message
dict — in particular every payload whose messages are empty or absent at
any nesting level (entry, changes, value, messages) — is acknowledged
with 200 `{"status":"ok"}`, sends nothing, and never invokes the agent.
The first conjunct is the blanket statement; the second pins the claim's
scope in the code's own terms: the navigation of lines 137-140 raised at
some level (e.g. an empty `entry` or `changes` array), or it produced a
falsy `messages` value (the empty array, also what the `.get` defaults
yield when `entry`, `changes`, `value` or `messages` is absent). -/
theorem C8_empty_or_absent :
    ∀ (body : Option JVal) (agent : JVal → List Char → AgentOutcome),
      (MetaApi.extractFirst body = none →
        MetaApi.whatsapp_webhook body agent = ⟨.ack, [], []⟩) ∧
      (∀ data, body = some data →
        (MetaApi.getMessages data = .error () ∨
          ∃ msgs, MetaApi.getMessages data = .ok msgs ∧
            pyTruthy msgs = false) →
        MetaApi.whatsapp_webhook body agent = ⟨.ack, [], []⟩) := by
  intro body agent
  constructor
  · intro h
    unfold MetaApi.whatsapp_webhook
    rw [h]
  · intro data hb hcase
    subst hb
    have hext : MetaApi.extractFirst (some data) = none := by
      unfold MetaApi.extractFirst
      rcases hcase with herr | ⟨msgs, hok, hfalsy⟩
      · simp [herr]
      · simp [hok, hfalsy]
    unfold MetaApi.whatsapp_webhook
    rw [hext]

/-- C8 witness: a status-callback payload (a `value` object holding
`statuses` and `metadata` but no `messages` key) is acknowledged bare:
the defaults yield the falsy empty messages array. -/
theorem C8_empty_or_absent_witness :
    MetaApi.whatsapp_webhook (some statusCallbackPayload) agentOk
      = ⟨.ack, [], []⟩ :=
  (C8_empty_or_absent (some statusCallbackPayload) agentOk).2
    statusCallbackPayload rfl (Or.inr ⟨.jarr [], rfl, rfl⟩)

/-- C7: a payload whose first message reaches the handler with a string
sender and a type other than "text" results in exactly one outbound
message, the fixed apology, sent to the resolved sender; the agent is not
invoked and the request is acknowledged with 200. -/
theorem C7_unsupported_type :
    ∀ (body : Option JVal) (agent : JVal → List Char → AgentOutcome)
      (fs : List (List Char × JVal)) (s : List Char),
      MetaApi.extractFirst body = some fs →
      (lookupField fs fromKey).getD .jnull = .jstr s →
      MetaApi.isTextType ((lookupField fs typeKey).getD .jnull)
        = false →
      MetaApi.whatsapp_webhook body agent
        = ⟨.ack, [(resolve s, MetaApi.unsupportedMsg)], []⟩ := by
  intro body agent fs s hext hfrom htype
  unfold MetaApi.whatsapp_webhook
  rw [hext]
  simp [MetaApi.handleMessage, hfrom, htype]

/-- C7 witness: an image payload from "whatsapp:+15551234567" gets the
apology at the resolved key, with no agent call. -/
theorem C7_unsupported_type_witness :
    MetaApi.whatsapp_webhook (some imgPayload) agentOk
      = ⟨.ack, [("15551234567".toList, MetaApi.unsupportedMsg)], []⟩ :=
  C7_unsupported_type (some imgPayload) agentOk _
    "whatsapp:+15551234567".toList rfl rfl rfl

/-- C9: the Twilio handler invokes the agent with the form body and the
session key resolved from the From field, and always answers HTTP 200
with an application/xml messaging-response carrying the agent reply
unchanged (no sanitisation), or the fixed fallback when the agent
raised. -/
theorem C9_twilio_webhook :
    ∀ (To : List Char) (agent : List Char → List Char → AgentOutcome),
      (∀ r : List Char,
        agent "Hi".toList "15551234567".toList = .responded r →
        TwilioApi.whatsapp_webhook "Hi".toList
            "whatsapp:+15551234567".toList To agent
          = ⟨200, "application/xml".toList, [r],
              [("Hi".toList, "15551234567".toList)]⟩) ∧
      (agent "Hi".toList "15551234567".toList = .raised →
        TwilioApi.whatsapp_webhook "Hi".toList
            "whatsapp:+15551234567".toList To agent
          = ⟨200, "application/xml".toList, [MetaApi.errMsg],
              [("Hi".toList, "15551234567".toList)]⟩) := by
  intro To agent
  have hres : resolve ("whatsapp:+15551234567".toList)
      = "15551234567".toList := by decide
  constructor
  · intro r hag
    simp only [TwilioApi.whatsapp_webhook]
    rw [hres, hag]
  · intro hag
    simp only [TwilioApi.whatsapp_webhook]
    rw [hres, hag]

/-- C9 witness: the Twilio handler at a concrete responding agent. -/
theorem C9_twilio_webhook_witness :
    TwilioApi.whatsapp_webhook "Hi".toList "whatsapp:+15551234567".toList
        "whatsapp:+14155238886".toList (fun _ _ => .responded "yo".toList)
      = ⟨200, "application/xml".toList, ["yo".toList],
          [("Hi".toList, "15551234567".toList)]⟩ :=
  (C9_twilio_webhook _ _).1 "yo".toList rfl

/-- C5 counterexample: the body-non-emptiness half of the claimed
invariant is false. For a well-formed text message whose `text` object
lacks a `body` key, the extracted body defaults to the empty string and
the agent IS invoked (with that empty body) instead of the pipeline
short-circuiting. -/
theorem C5_counterexample :
    (MetaApi.whatsapp_webhook (some emptyBodyPayload) agentOk).agentCalls.length
      = 1 ∧
    (MetaApi.whatsapp_webhook (some emptyBodyPayload) agentOk).agentCalls.map
        Prod.fst = [.jstr []] :=
  ⟨rfl, rfl⟩

/-- C5 (amended): whenever the agent is invoked, the first message was
extracted and its type field was exactly "text"; and every extracted
message with a string sender and a non-text type short-circuits to the
fixed unsupported-type reply without invoking the agent. The claimed
non-emptiness of the body is NOT enforced by the code: an extracted body
may be empty and the agent is still invoked. -/
theorem C5_text_invariant_amended :
    (∀ (body : Option JVal) (agent : JVal → List Char → AgentOutcome),
      (MetaApi.whatsapp_webhook body agent).agentCalls ≠ [] →
      ∃ fs, MetaApi.extractFirst body = some fs ∧
        MetaApi.isTextType ((lookupField fs typeKey).getD .jnull)
          = true) ∧
    (∀ (body : Option JVal) (agent : JVal → List Char → AgentOutcome)
      (fs : List (List Char × JVal)) (s : List Char),
      MetaApi.extractFirst body = some fs →
      (lookupField fs fromKey).getD .jnull = .jstr s →
      MetaApi.isTextType ((lookupField fs typeKey).getD .jnull) = false →
      (MetaApi.whatsapp_webhook body agent).agentCalls = [] ∧
      (MetaApi.whatsapp_webhook body agent).sends
        = [(resolve s, MetaApi.unsupportedMsg)]) := by
  constructor
  · intro body agent h
    cases hext : MetaApi.extractFirst body with
    | none =>
      unfold MetaApi.whatsapp_webhook at h
      rw [hext] at h
      exact absurd rfl h
    | some fs =>
      refine ⟨fs, rfl, ?_⟩
      cases htype : MetaApi.isTextType ((lookupField fs typeKey).getD .jnull)
        with
      | true => rfl
      | false =>
        exfalso
        apply h
        unfold MetaApi.whatsapp_webhook
        rw [hext]
        cases hfrom : (lookupField fs fromKey).getD .jnull <;>
          simp [MetaApi.handleMessage, hfrom, htype, exceptPath_calls]
  · intro body agent fs s hext hfrom htype
    unfold MetaApi.whatsapp_webhook
    rw [hext]
    constructor <;> simp [MetaApi.handleMessage, hfrom, htype]

/-- C5 witness: the amended short-circuit at a concrete audio payload. -/
theorem C5_text_invariant_amended_witness :
    (MetaApi.whatsapp_webhook (some audioPayload) agentOk).agentCalls = [] ∧
    (MetaApi.whatsapp_webhook (some audioPayload) agentOk).sends
      = [(resolve "+15551234567".toList, MetaApi.unsupportedMsg)] :=
  C5_text_invariant_amended.2 (some audioPayload) agentOk _
    "+15551234567".toList rfl rfl rfl

/-- C2: for a well-formed text message from a (truthy) sender `s` with
body `m`, an agent that raises still yields the 200 acknowledgement and
exactly one outbound message, the fixed fallback, to the resolved
sender; an agent returning a falsy (absent) response yields the other
fixed fallback as the outbound text instead of an agent reply. -/
theorem C2_agent_failure_fallback :
    ∀ (s m : List Char) (agent : JVal → List Char → AgentOutcome),
      s ≠ [] →
      (agent (.jstr m) (resolve s) = .raised →
        MetaApi.whatsapp_webhook (some (mkTextPayload s m)) agent
          = ⟨.ack, [(resolve s, MetaApi.errMsg)],
              [(.jstr m, resolve s)]⟩) ∧
      (agent (.jstr m) (resolve s) = .noResponse →
        MetaApi.whatsapp_webhook (some (mkTextPayload s m)) agent
          = ⟨.ack, [(resolve s, MetaApi.oopsMsg)],
              [(.jstr m, resolve s)]⟩) := by
  intro s m agent hs
  have hext : MetaApi.extractFirst (some (mkTextPayload s m))
      = some [(fromKey, .jstr s), (typeKey, .jstr "text".toList),
          (textKey, .jobj [(bodyKey, .jstr m)])] := rfl
  have htru : pyTruthy (.jstr s) = true := by
    cases s with
    | nil => exact absurd rfl hs
    | cons c r => rfl
  constructor
  · intro hag
    unfold MetaApi.whatsapp_webhook
    rw [hext]
    simp [MetaApi.handleMessage, MetaApi.isTextType, lookupField,
      fromKey, typeKey, textKey, bodyKey, hag, MetaApi.exceptPath, htru]
  · intro hag
    unfold MetaApi.whatsapp_webhook
    rw [hext]
    simp [MetaApi.handleMessage, MetaApi.isTextType, lookupField,
      fromKey, typeKey, textKey, bodyKey, hag, clean_oops]

/-- C2 witness: the raising agent at the spec sender "15551234567". -/
theorem C2_agent_failure_fallback_witness :
    MetaApi.whatsapp_webhook
        (some (mkTextPayload "15551234567".toList "Hi".toList))
        (fun _ _ => .raised)
      = ⟨.ack, [(resolve "15551234567".toList, MetaApi.errMsg)],
          [(.jstr "Hi".toList, resolve "15551234567".toList)]⟩ :=
  (C2_agent_failure_fallback "15551234567".toList "Hi".toList
    (fun _ _ => .raised) (by decide)).1 rfl

/-- C1 counterexample: the always-200 contract is not unconditional. For
a payload whose first message has the number 5 as its `from` field,
line 147 raises, and the except block calls `.replace` on the same
non-string value and raises again, so the handler does not return the
200 acknowledgement. -/
theorem C1_counterexample :
    (MetaApi.whatsapp_webhook (some badFromPayload) agentOk).outcome
      ≠ HttpOutcome.ack := by decide

/-- C1 (amended): the Meta POST handler returns HTTP 200
`{"status":"ok"}` for every payload and every agent behaviour —
malformed JSON, extraction failure at any level, unsupported types,
agent raise or falsy response — EXCEPT exactly when the first message
carries a truthy non-string `from` value, in which case the except block
itself raises and an unhandled error propagates to the transport. -/
theorem C1_always_ack_amended :
    ∀ (body : Option JVal) (agent : JVal → List Char → AgentOutcome),
      (MetaApi.whatsapp_webhook body agent).outcome
        = (if MetaApi.badFrom body then HttpOutcome.unhandledError
           else .ack) := by
  intro body agent
  cases hext : MetaApi.extractFirst body with
  | none =>
    unfold MetaApi.whatsapp_webhook
    rw [hext]
    simp [MetaApi.badFrom, MetaApi.fromField, hext]
  | some fs =>
    have hbf : MetaApi.badFrom body
        = (pyTruthy ((lookupField fs fromKey).getD .jnull)
            && !isJStr ((lookupField fs fromKey).getD .jnull)) := by
      simp [MetaApi.badFrom, MetaApi.fromField, hext]
    unfold MetaApi.whatsapp_webhook
    rw [hext, hbf]
    cases hfrom : (lookupField fs fromKey).getD .jnull with
    | jstr s =>
      simp only [MetaApi.handleMessage, hfrom, isJStr, Bool.not_true,
        Bool.and_false, Bool.false_eq_true, if_false]
      by_cases htype :
          MetaApi.isTextType ((lookupField fs typeKey).getD .jnull) = true
      · simp only [htype, if_true]
        cases htx : (lookupField fs textKey).getD (.jobj []) with
        | jobj tfs =>
          simp only [htx]
          cases hag : agent ((lookupField tfs bodyKey).getD (.jstr []))
              (resolve s) with
          | raised => simp [hag, exceptPath_outcome, isJStr]
          | noResponse => simp [hag]
          | responded content => simp [hag]
        | jnull => simp [htx, exceptPath_outcome, isJStr]
        | jbool b => simp [htx, exceptPath_outcome, isJStr]
        | jnum n => simp [htx, exceptPath_outcome, isJStr]
        | jstr s2 => simp [htx, exceptPath_outcome, isJStr]
        | jarr xs => simp [htx, exceptPath_outcome, isJStr]
      · simp [htype]
    | jnull =>
      simp [MetaApi.handleMessage, hfrom, exceptPath_outcome, pyTruthy, isJStr]
    | jbool b =>
      simp [MetaApi.handleMessage, hfrom, exceptPath_outcome, pyTruthy, isJStr]
    | jnum n =>
      simp [MetaApi.handleMessage, hfrom, exceptPath_outcome, pyTruthy, isJStr]
    | jarr xs =>
      simp [MetaApi.handleMessage, hfrom, exceptPath_outcome, pyTruthy, isJStr]
    | jobj gs =>
      simp [MetaApi.handleMessage, hfrom, exceptPath_outcome, pyTruthy, isJStr]
